import Mathlib

/-!
Shallow embedding of the Moodstream backend core (identity resolution,
content ingestion, playlist membership) translated from
`src/routes/playlists.js`, `src/routes/upload.js` and `src/db.js`.

JavaScript truthiness on strings (`""`, `null`, `undefined` are falsy) is
modelled with `Option String` and the `jsOr` combinator, which is the
semantics of the JS `||` operator restricted to string-valued operands.
-/

/-- JS `a || b` for string-valued operands: `null`/`undefined` is `none`,
and the empty string is falsy. -/
def jsOr (a b : Option String) : Option String :=
  match a with
  | none => b
  | some s => if s = "" then b else some s

/-- JS `a || null` for a string-valued operand. -/
def orNull (a : Option String) : Option String :=
  jsOr a none

/-- JS `a || b` on a plain (non-nullable) string operand. -/
def jsOrS (a b : String) : String :=
  if a = "" then b else a

/-- JS truthiness test for a string-valued operand. -/
def truthy (a : Option String) : Bool :=
  match a with
  | none => false
  | some s => !(s == "")

/-- JS `a || b` for number-valued operands (0 is falsy). -/
def jsOrN (a b : Option Nat) : Option Nat :=
  match a with
  | none => b
  | some n => if n = 0 then b else some n

/-- JS `a || b` for integer-valued operands (0 is falsy). -/
def jsOrI (a b : Option Int) : Option Int :=
  match a with
  | none => b
  | some n => if n = 0 then b else some n

/-! ## Identity resolver (`getLocalUserIdFromToken`, playlists.js lines 26-55) -/

/-- Profile returned by the identity provider (`supabase.auth.getUser`):
the auth subject (uuid string), `user_metadata.name` and `email`. -/
structure SupaUser where
  id : String
  metaName : Option String
  email : Option String
deriving DecidableEq, Repr

/-- A row of the `users` table. -/
structure UserRow where
  id : Int
  name : Option String
  email : Option String
  auth_user_id : String
deriving DecidableEq, Repr

/-- The `users` table together with the generator for the next primary key. -/
structure UsersDB where
  users : List UserRow
  nextId : Int
deriving DecidableEq, Repr

/-- `SELECT id FROM users WHERE auth_user_id = $1 LIMIT 1`. -/
def lookupUserBySubject (db : UsersDB) (subject : String) : Option UserRow :=
  db.users.find? (fun r => r.auth_user_id == subject)

/-- `INSERT INTO users (name, email, auth_user_id) VALUES ($1,$2,$3) RETURNING id`.
The datastore enforces a uniqueness constraint on `auth_user_id`: inserting a
second row for the same subject fails with a duplicate-key error. -/
def insertUserRow (db : UsersDB) (name email : Option String) (subject : String) :
    Except Unit (Int × UsersDB) :=
  if db.users.any (fun r => r.auth_user_id == subject) then
    Except.error ()
  else
    Except.ok (db.nextId,
      { users := db.users ++ [⟨db.nextId, name, email, subject⟩],
        nextId := db.nextId + 1 })

/-- The request fields `getLocalUserIdFromToken` reads:
`req.headers.authorization`, `req.cookies?.authorization`, `req.cookies?.token`. -/
structure AuthReq where
  authorization : Option String
  cookieAuthorization : Option String
  cookieToken : Option String
deriving DecidableEq, Repr

/-- JS `String.prototype.trim`: strip leading and trailing whitespace. -/
def jsTrim (s : String) : String :=
  String.mk (((s.data.dropWhile Char.isWhitespace).reverse.dropWhile
    Char.isWhitespace).reverse)

/-- JS `String.prototype.split` with a single-character separator: empty
segments are kept, the empty string splits to `[""]`. -/
def jsSplitAux (sep : Char) : List Char → List Char → List (List Char)
  | [], acc => [acc.reverse]
  | c :: rest, acc =>
    if c = sep then acc.reverse :: jsSplitAux sep rest []
    else jsSplitAux sep rest (c :: acc)

/-- JS `s.split(sep)` for a one-character separator. -/
def jsSplit (s : String) (sep : Char) : List String :=
  (jsSplitAux sep s.data []).map String.mk

/-- Token extraction of playlists.js lines 28-30:
`authHeader?.split?.(" ")?.[1] || authHeader`, then `if (!token) return null`. -/
def requestToken (req : AuthReq) : Option String :=
  let authHeader := jsOr req.authorization (jsOr req.cookieAuthorization req.cookieToken)
  match authHeader with
  | none => none
  | some h => orNull (jsOr ((jsSplit h ' ').get? 1) (some h))

/-- `getLocalUserIdFromToken` (playlists.js lines 26-55). The two datastore
calls (SELECT then INSERT) are distinct suspension points of the async
handler; `interleave` is the effect of concurrently completing requests on
the `users` table between those two points (`id` for a sequential run).
Any exception inside the body is caught and turned into `none` (line 51-54). -/
def getLocalUserIdFromToken (getUser : String → Option SupaUser)
    (req : AuthReq) (interleave : UsersDB → UsersDB) (db : UsersDB) :
    Option Int × UsersDB :=
  match requestToken req with
  | none => (none, db)
  | some token =>
    match getUser token with
    | none => (none, db)
    | some u =>
      match lookupUserBySubject db u.id with
      | some row => (some row.id, db)
      | none =>
        let db2 := interleave db
        match insertUserRow db2 (orNull u.metaName) (orNull u.email) u.id with
        | Except.ok (newId, db3) => (some newId, db3)
        | Except.error _ => (none, db2)

/-! ## Playlist manager (playlists.js lines 135-215) -/

/-- A row of the `playlists` table (the columns the handlers read). -/
structure Playlist where
  id : Int
  user_id : Int
deriving DecidableEq, Repr

/-- State touched by the add/remove handlers: the `playlists` table and the
`playlist_songs` associative table (pairs `(playlist_id, track_id)`). -/
structure PlaylistDB where
  playlists : List Playlist
  playlist_songs : List (Int × Int)
deriving DecidableEq, Repr

/-- `SELECT user_id FROM playlists WHERE id = $1 LIMIT 1`. -/
def findPlaylist (db : PlaylistDB) (pid : Int) : Option Playlist :=
  db.playlists.find? (fun p => p.id == pid)

/-- Socket.IO events emitted by the playlist handlers. -/
inductive PlaylistEvent where
  | playlistUpdatedAdded (playlistId trackId : Int) (added : Bool)
  | playlistUpdatedRemoved (playlistId trackId : Int) (removed : Bool)
deriving DecidableEq, Repr

/-- Response of `handleAddTrack`: 401, 400, 403, or
`{success:true, inserted}`. -/
inductive AddResp where
  | unauthorized
  | badRequest
  | forbidden
  | ok (inserted : Bool)
deriving DecidableEq, Repr

/-- Response of `handleRemoveTrack`: 401, 400, 403, or
`{success:true, deletedRows}`. -/
inductive RemoveResp where
  | unauthorized
  | badRequest
  | forbidden
  | ok (deletedRows : Nat)
deriving DecidableEq, Repr

/-- `handleAddTrack` (playlists.js lines 135-173). `userId?` is the result of
`getLocalUserIdFromToken`; `playlistId?`/`trackId?` are the `parseInt`
results (`none` when not an integer); `ioPresent` is whether `req.app` has a
Socket.IO server. Returns (response, new state, emitted events). -/
def handleAddTrack (userId? : Option Int) (playlistId? trackId? : Option Int)
    (ioPresent : Bool) (db : PlaylistDB) :
    AddResp × PlaylistDB × List PlaylistEvent :=
  match userId? with
  | none => (AddResp.unauthorized, db, [])
  | some userId =>
    match playlistId?, trackId? with
    | some playlistId, some trackId =>
      match findPlaylist db playlistId with
      | none => (AddResp.forbidden, db, [])
      | some pl =>
        if pl.user_id ≠ userId then (AddResp.forbidden, db, [])
        else
          -- INSERT ... ON CONFLICT (playlist_id, track_id) DO NOTHING RETURNING *
          -- `inserted` is whether the insert returned a row
          if (playlistId, trackId) ∈ db.playlist_songs then
            (AddResp.ok false, db,
             if ioPresent then [PlaylistEvent.playlistUpdatedAdded playlistId trackId false]
             else [])
          else
            (AddResp.ok true,
             { db with playlist_songs := db.playlist_songs ++ [(playlistId, trackId)] },
             if ioPresent then [PlaylistEvent.playlistUpdatedAdded playlistId trackId true]
             else [])
    | _, _ => (AddResp.badRequest, db, [])

/-- `handleRemoveTrack` (playlists.js lines 175-207). -/
def handleRemoveTrack (userId? : Option Int) (playlistId? trackId? : Option Int)
    (ioPresent : Bool) (db : PlaylistDB) :
    RemoveResp × PlaylistDB × List PlaylistEvent :=
  match userId? with
  | none => (RemoveResp.unauthorized, db, [])
  | some userId =>
    match playlistId?, trackId? with
    | some playlistId, some trackId =>
      match findPlaylist db playlistId with
      | none => (RemoveResp.forbidden, db, [])
      | some pl =>
        if pl.user_id ≠ userId then (RemoveResp.forbidden, db, [])
        else
          -- DELETE FROM playlist_songs WHERE playlist_id = $1 AND track_id = $2
          let deletedRows :=
            (db.playlist_songs.filter (fun pr => decide (pr = (playlistId, trackId)))).length
          let db' :=
            { db with playlist_songs :=
                db.playlist_songs.filter (fun pr => decide (¬ pr = (playlistId, trackId))) }
          let events :=
            if ioPresent then [PlaylistEvent.playlistUpdatedRemoved playlistId trackId true]
            else []
          (RemoveResp.ok deletedRows, db', events)
    | _, _ => (RemoveResp.badRequest, db, [])

/-- The handler a POST under `/api/playlists/:playlistId/<seg>` dispatches to. -/
inductive PlaylistPostHandler where
  | addTrack
  | removeTrack
deriving DecidableEq, Repr

/-- Route registration of playlists.js lines 209-215: the preferred paths
`add-track`/`remove-track` and the backward-compatible `add`/`remove`,
matched in registration order. -/
def playlistPostRoute (seg : String) : Option PlaylistPostHandler :=
  if seg = "add-track" then some PlaylistPostHandler.addTrack
  else if seg = "remove-track" then some PlaylistPostHandler.removeTrack
  else if seg = "add" then some PlaylistPostHandler.addTrack
  else if seg = "remove" then some PlaylistPostHandler.removeTrack
  else none

/-- Outcome of dispatching and running a playlist POST request. -/
inductive PlaylistPostOutcome where
  | added (r : AddResp × PlaylistDB × List PlaylistEvent)
  | removed (r : RemoveResp × PlaylistDB × List PlaylistEvent)
  | noRoute
deriving DecidableEq, Repr

/-- Dispatch a POST on path segment `seg` and run the registered handler. -/
def runPlaylistPost (seg : String) (userId? playlistId? trackId? : Option Int)
    (ioPresent : Bool) (db : PlaylistDB) : PlaylistPostOutcome :=
  match playlistPostRoute seg with
  | some PlaylistPostHandler.addTrack =>
      PlaylistPostOutcome.added (handleAddTrack userId? playlistId? trackId? ioPresent db)
  | some PlaylistPostHandler.removeTrack =>
      PlaylistPostOutcome.removed (handleRemoveTrack userId? playlistId? trackId? ioPresent db)
  | none => PlaylistPostOutcome.noRoute

/-! ## Content ingestion (`POST /upload-track`, upload.js) -/

/-- Local fallback asset path of upload.js line 14. -/
def LOCAL_TEST_PATH : String := "/mnt/data/Screenshot 2025-11-25 at 10.04.22 PM.png"

/-- A character kept by the sanitizer regex `[^a-zA-Z0-9_\-\.]`. -/
def isSafeChar (c : Char) : Bool :=
  c.isAlpha || c.isDigit || c == '_' || c == '-' || c == '.'

/-- `.replace(/\s+/g, "_")`: each maximal run of whitespace becomes one
underscore. Folding from the right, the Bool carries whether the character
to the right was whitespace. -/
def collapseWsAux (cs : List Char) : List Char × Bool :=
  cs.foldr
    (fun c acc =>
      if c.isWhitespace then
        (if acc.2 then acc.1 else '_' :: acc.1, true)
      else (c :: acc.1, false))
    ([], false)

/-- `makeSafeName` (upload.js lines 17-22). -/
def makeSafeName (name : String) : String :=
  let base := jsOrS name "file"
  String.mk (((collapseWsAux base.data).1).filter isSafeChar)

/-- A multer file object: original filename, declared MIME type, byte size. -/
structure UploadedFile where
  originalname : String
  mimetype : String
  size : Nat
deriving DecidableEq, Repr

/-- Request fields read by the upload handler. `userCookie` is the `user`
cookie set by the Google OAuth callback: absent, present-but-unparseable,
or a parsed `{name?, email?}` object. `userId` is the already-parsed legacy
numeric id (`none` when absent or not a finite number). -/
structure UploadReq where
  audio : Option UploadedFile
  cover : Option UploadedFile
  title : Option String
  artist_name : Option String
  artist : Option String
  uploader_name : Option String
  userId : Option Int
  authorization : Option String
  userCookie : Option (Except Unit (Option String × Option String))

/-- Token extraction of upload.js line 77:
`req.headers.authorization?.split(" ")[1]`, guarded by `if (token)`. -/
def bearerToken (h : Option String) : Option String :=
  match h with
  | none => none
  | some s => orNull ((jsSplit s ' ').get? 1)

/-- External collaborators and per-request nondeterminism of the upload
handler: `Date.now()`, the identity provider, the object store
(`putObject bucket key` returns an error or a possibly-null public URL),
whether the metadata insert succeeds, the generated track id, and whether
a Socket.IO server is configured. -/
structure UploadEnv where
  now : Nat
  getUser : String → Option SupaUser
  putObject : String → String → Except Unit (Option String)
  dbInsertOk : Bool
  newTrackId : Nat
  ioPresent : Bool

/-- `uploadBuffer` (upload.js lines 31-41): throws on a store error,
otherwise returns `data?.publicUrl || null`. -/
def uploadBuffer (env : UploadEnv) (bucket filePath : String) :
    Except Unit (Option String) :=
  match env.putObject bucket filePath with
  | Except.error e => Except.error e
  | Except.ok url? => Except.ok (orNull url?)

/-- Uploader-name resolution (upload.js lines 68-116 without the legacy
userId step, which is independent). Returns `(authUserId, uploaderName)`. -/
def resolveUploaderName (getUser : String → Option SupaUser)
    (req : UploadReq) (artistName : String) : Option String × Option String :=
  -- 1) body.uploader_name: (req.body?.uploader_name || "").trim() || null
  let uploaderName0 := orNull (some (jsTrim (req.uploader_name.getD "")))
  -- 2) Supabase auth user, when a bearer token is present and resolves
  let resolved :=
    match bearerToken req.authorization with
    | none => (none, uploaderName0)
    | some tok =>
      match getUser tok with
      | none => (none, uploaderName0)
      | some u =>
        (orNull (some u.id),
         if truthy uploaderName0 then uploaderName0
         else jsOr u.metaName (orNull u.email))
  let authUserId := resolved.1
  let uploaderName1 := resolved.2
  -- 3) Google OAuth cookie (JSON.parse failure leaves the name unchanged)
  let uploaderName2 :=
    if truthy uploaderName1 then uploaderName1
    else
      match req.userCookie with
      | some (Except.ok (nm, em)) => jsOr nm (jsOr em uploaderName1)
      | _ => uploaderName1
  -- 5) final fallback: artistName
  (authUserId, jsOr uploaderName2 (some artistName))

/-- A row of the `tracks` table as written by the ingestion insert
(upload.js lines 161-191); `created_at` abstracts the datastore `NOW()`. -/
structure TrackRow where
  id : Nat
  title : String
  artist_name : String
  uploader_name : Option String
  storage_key : String
  public_url : Option String
  cover_path : Option String
  cover_url : Option String
  size_bytes : Option Nat
  mime_type : Option String
  auth_user_id : Option String
  user_id : Option Int
  created_at : Nat
deriving DecidableEq, Repr

/-- The normalized track object returned to the uploader
(upload.js lines 202-215). -/
structure Track where
  id : Nat
  title : String
  artist_name : String
  uploader_name : Option String
  public_url : Option String
  cover_url : Option String
  storage_key : String
  size_bytes : Option Nat
  mime_type : Option String
  created_at : Nat
  auth_user_id : Option String
  user_id : Option Int
deriving DecidableEq, Repr

/-- Response of `POST /upload-track`: 400 validation error, 500 on insert
failure, or the success payload `{message, track}`. -/
inductive UploadResp where
  | validationError
  | dbInsertError
  | ok (message : String) (track : Track)
deriving DecidableEq, Repr

/-- Realtime event emitted by the upload handler. -/
inductive UploadEvent where
  | newTrack (t : Track)
deriving DecidableEq, Repr

/-- `POST /upload-track` (upload.js lines 46-239). Returns the response,
the trace of object-store calls attempted (bucket, key), and the emitted
realtime events. -/
def handleUploadTrack (env : UploadEnv) (req : UploadReq) :
    UploadResp × List (String × String) × List UploadEvent :=
  let title := jsTrim (req.title.getD "")
  let artistInput := jsTrim ((jsOr req.artist_name (jsOr req.artist (some ""))).getD "")
  let artistName := jsOrS artistInput "Unknown Artist"
  match req.audio with
  | none => (UploadResp.validationError, [], [])
  | some audio =>
    if title = "" then (UploadResp.validationError, [], [])
    else
      let resolved := resolveUploaderName env.getUser req artistName
      let authUserId := resolved.1
      let uploaderName := resolved.2
      let legacyUserId := req.userId
      -- audio upload
      let timestamp := env.now
      let safeAudio := makeSafeName audio.originalname
      let audioPath := "tracks/" ++ (toString timestamp ++ "_" ++ safeAudio)
      let sizeBytes : Option Nat := jsOrN (some audio.size) none
      let mimeType : Option String := orNull (some audio.mimetype)
      let audioAttempt := uploadBuffer env "Tracks" audioPath
      let audioUrl :=
        match audioAttempt with
        | Except.ok url? => url?
        | Except.error _ => some LOCAL_TEST_PATH
      let audioStorageKey :=
        match audioAttempt with
        | Except.ok _ => audioPath
        | Except.error _ => "debug/" ++ (toString timestamp ++ "_" ++ safeAudio)
      let trace1 := [("Tracks", audioPath)]
      -- optional cover upload
      let coverStep :
          Option String × Option String × Option String × Option Nat
            × List (String × String) :=
        match req.cover with
        | none => (none, some LOCAL_TEST_PATH, none, none, [])
        | some cover =>
          let safeCover := makeSafeName cover.originalname
          let coverPath := "covers/" ++ (toString timestamp ++ "_" ++ safeCover)
          match uploadBuffer env "Tracks" coverPath with
          | Except.ok url? =>
              (some coverPath, url?, some cover.mimetype, some cover.size,
               [("Tracks", coverPath)])
          | Except.error _ =>
              (some ("debug/covers/" ++ (toString timestamp ++ "_"
                      ++ makeSafeName cover.originalname)),
               some LOCAL_TEST_PATH, none, none,
               [("Tracks", coverPath)])
      let coverPath := coverStep.1
      let coverUrl := coverStep.2.1
      let trace2 := coverStep.2.2.2.2
      let trace := trace1 ++ trace2
      -- metadata insert, RETURNING *
      if env.dbInsertOk then
        let inserted : TrackRow :=
          { id := env.newTrackId, title := title, artist_name := artistName,
            uploader_name := uploaderName, storage_key := audioStorageKey,
            public_url := audioUrl, cover_path := coverPath,
            cover_url := coverUrl, size_bytes := sizeBytes,
            mime_type := mimeType, auth_user_id := authUserId,
            user_id := legacyUserId, created_at := timestamp }
        let track : Track :=
          { id := inserted.id, title := inserted.title,
            artist_name := inserted.artist_name,
            uploader_name := jsOr inserted.uploader_name
              (jsOr uploaderName (some artistName)),
            public_url := jsOr inserted.public_url
              (jsOr audioUrl (some LOCAL_TEST_PATH)),
            cover_url := jsOr inserted.cover_url
              (jsOr coverUrl (some LOCAL_TEST_PATH)),
            storage_key := jsOrS inserted.storage_key audioStorageKey,
            size_bytes := jsOrN inserted.size_bytes sizeBytes,
            mime_type := jsOr inserted.mime_type mimeType,
            created_at := inserted.created_at,
            auth_user_id := jsOr inserted.auth_user_id authUserId,
            user_id := jsOrI inserted.user_id legacyUserId }
        let events := if env.ioPresent then [UploadEvent.newTrack track] else []
        (UploadResp.ok "Track uploaded successfully" track, trace, events)
      else
        (UploadResp.dbInsertError, trace, [])

/-! ## Spec-side model of the uploader-name fallback chain -/

/-- Modelled from the spec's words (§4.2): "Uploader-name resolution order
(first non-empty wins): explicit uploader-name field in the request →
identity-provider profile name/email → a legacy cookie-carried display
name → the resolved artist name." The first non-empty source wins; when
every source is empty or absent the artist name is used. -/
def specUploaderName : List (Option String) → String → String
  | [], artistName => artistName
  | src :: rest, artistName =>
    match src with
    | some s => if s = "" then specUploaderName rest artistName else s
    | none => specUploaderName rest artistName

/-- The identity-provider profile `(name, email)` visible to the upload
handler: present only when a bearer token is carried and resolves. -/
def providerProfile (getUser : String → Option SupaUser) (req : UploadReq) :
    Option String × Option String :=
  match bearerToken req.authorization with
  | none => (none, none)
  | some tok =>
    match getUser tok with
    | none => (none, none)
    | some u => (u.metaName, u.email)

/-- The cookie-carried display `(name, email)`: present only when the
`user` cookie exists and parses. -/
def cookieProfile (req : UploadReq) : Option String × Option String :=
  match req.userCookie with
  | some (Except.ok (nm, em)) => (nm, em)
  | _ => (none, none)

/-- The interleaving in which a concurrent first-time resolution for
subject `"subj"` wins the race between this request's lookup and its
insert, creating the row with id 1. -/
def raceInterleave : UsersDB → UsersDB :=
  fun db => ⟨db.users ++ [⟨1, none, none, "subj"⟩], db.nextId + 1⟩

/-! ## Concrete fixtures used by the witnesses -/

/-- An environment whose object store rejects every upload. -/
def envFail : UploadEnv :=
  { now := 5, getUser := fun _ => none, putObject := fun _ _ => Except.error (),
    dbInsertOk := true, newTrackId := 1, ioPresent := true }

/-- An environment whose object store accepts every upload. -/
def envOk : UploadEnv :=
  { now := 5, getUser := fun _ => none,
    putObject := fun _ _ => Except.ok (some "https://cdn.example/obj"),
    dbInsertOk := true, newTrackId := 1, ioPresent := true }

/-- A valid audio payload. -/
def audioFile : UploadedFile :=
  { originalname := "song.mp3", mimetype := "audio/mpeg", size := 3 }

/-- A valid upload request: non-empty title, audio present, no cover. -/
def reqNightDrive : UploadReq :=
  { audio := some audioFile, cover := none, title := some "Night Drive",
    artist_name := none, artist := none, uploader_name := none, userId := none,
    authorization := none, userCookie := none }

/-- An upload request whose title is whitespace only (empty after trim). -/
def reqBlankTitle : UploadReq :=
  { audio := some audioFile, cover := none, title := some "   ",
    artist_name := none, artist := none, uploader_name := none, userId := none,
    authorization := none, userCookie := none }

/-! ## Helper lemmas -/

theorem jsOr_some_of_ne (s : String) (h : ¬ s = "") (x : Option String) :
    jsOr (some s) x = some s := by
  simp [jsOr, h]

theorem jsOrS_self (s : String) : jsOrS s s = s := by
  unfold jsOrS
  split <;> rfl

theorem LOCAL_TEST_PATH_ne_empty : ¬ (LOCAL_TEST_PATH = "") := by
  decide

/-! ## Theorems: playlist manager -/

/-- C1: for an authenticated owner, adding the same (playlist, track) pair
twice in sequence (starting from a state where the pair is not yet a
member) answers `{inserted:true}` then `{inserted:false}`, and the
membership state after the second call equals the state after the first
call; the repeated add is never an error. -/
theorem addTrack_twice_idempotent (uid pid tid : Int) (io : Bool) (db : PlaylistDB)
    (pl : Playlist) (hfind : findPlaylist db pid = some pl) (hown : pl.user_id = uid)
    (hmem : (pid, tid) ∉ db.playlist_songs) :
    (handleAddTrack (some uid) (some pid) (some tid) io db).1 = AddResp.ok true ∧
    (handleAddTrack (some uid) (some pid) (some tid) io
        (handleAddTrack (some uid) (some pid) (some tid) io db).2.1).1
      = AddResp.ok false ∧
    (handleAddTrack (some uid) (some pid) (some tid) io
        (handleAddTrack (some uid) (some pid) (some tid) io db).2.1).2.1
      = (handleAddTrack (some uid) (some pid) (some tid) io db).2.1 := by
  have h1 : handleAddTrack (some uid) (some pid) (some tid) io db
      = (AddResp.ok true,
         { db with playlist_songs := db.playlist_songs ++ [(pid, tid)] },
         if io then [PlaylistEvent.playlistUpdatedAdded pid tid true] else []) := by
    simp [handleAddTrack, hfind, hown, hmem]
  have hfind2 : findPlaylist
      { db with playlist_songs := db.playlist_songs ++ [(pid, tid)] } pid = some pl := hfind
  have h2 : handleAddTrack (some uid) (some pid) (some tid) io
      { db with playlist_songs := db.playlist_songs ++ [(pid, tid)] }
      = (AddResp.ok false,
         { db with playlist_songs := db.playlist_songs ++ [(pid, tid)] },
         if io then [PlaylistEvent.playlistUpdatedAdded pid tid false] else []) := by
    simp [handleAddTrack, hfind2, hown]
  rw [h1]
  simp only []
  rw [h2]
  exact ⟨trivial, rfl, rfl⟩

/-- C1 witness. -/
theorem addTrack_twice_idempotent_witness :
    (handleAddTrack (some 1) (some 10) (some 7) true ⟨[⟨10, 1⟩], []⟩).1
      = AddResp.ok true ∧
    (handleAddTrack (some 1) (some 10) (some 7) true
        (handleAddTrack (some 1) (some 10) (some 7) true ⟨[⟨10, 1⟩], []⟩).2.1).1
      = AddResp.ok false ∧
    (handleAddTrack (some 1) (some 10) (some 7) true
        (handleAddTrack (some 1) (some 10) (some 7) true ⟨[⟨10, 1⟩], []⟩).2.1).2.1
      = (handleAddTrack (some 1) (some 10) (some 7) true ⟨[⟨10, 1⟩], []⟩).2.1 :=
  addTrack_twice_idempotent 1 10 7 true ⟨[⟨10, 1⟩], []⟩ ⟨10, 1⟩
    (by decide) (by decide) (by decide)

/-- C4: a resolved user who is not the owner of the target playlist gets
`Forbidden` from both the add and the remove handler, for every integer
trackId (whether or not it references an existing track), with no change
to the membership state and no broadcast; and the Forbidden response is
distinct from the unauthenticated one. -/
theorem nonowner_forbidden (uid pid tid : Int) (io : Bool) (db : PlaylistDB)
    (pl : Playlist) (hfind : findPlaylist db pid = some pl) (hown : pl.user_id ≠ uid) :
    handleAddTrack (some uid) (some pid) (some tid) io db = (AddResp.forbidden, db, [])
    ∧ handleRemoveTrack (some uid) (some pid) (some tid) io db
        = (RemoveResp.forbidden, db, [])
    ∧ AddResp.forbidden ≠ AddResp.unauthorized
    ∧ RemoveResp.forbidden ≠ RemoveResp.unauthorized := by
  refine ⟨?_, ?_, by simp, by simp⟩ <;>
    simp [handleAddTrack, handleRemoveTrack, hfind, hown]

/-- C4 witness. -/
theorem nonowner_forbidden_witness :
    handleAddTrack (some 2) (some 10) (some 7) true ⟨[⟨10, 1⟩], []⟩
        = (AddResp.forbidden, ⟨[⟨10, 1⟩], []⟩, [])
    ∧ handleRemoveTrack (some 2) (some 10) (some 7) true ⟨[⟨10, 1⟩], []⟩
        = (RemoveResp.forbidden, ⟨[⟨10, 1⟩], []⟩, [])
    ∧ AddResp.forbidden ≠ AddResp.unauthorized
    ∧ RemoveResp.forbidden ≠ RemoveResp.unauthorized :=
  nonowner_forbidden 2 10 7 true ⟨[⟨10, 1⟩], []⟩ ⟨10, 1⟩ (by decide) (by decide)

/-- C6: for an authenticated owner, the remove handler broadcasts
`playlist-updated` with `removed: true` unconditionally (whenever a
realtime server is configured, whether or not a row was deleted), and on a
pair that is not a member it succeeds with 0 deleted rows and an unchanged
membership state instead of erroring. -/
theorem removeTrack_nonmember_ok (uid pid tid : Int) (io : Bool) (db : PlaylistDB)
    (pl : Playlist) (hfind : findPlaylist db pid = some pl) (hown : pl.user_id = uid) :
    (handleRemoveTrack (some uid) (some pid) (some tid) io db).2.2
      = (if io then [PlaylistEvent.playlistUpdatedRemoved pid tid true] else [])
    ∧ ((pid, tid) ∉ db.playlist_songs →
        handleRemoveTrack (some uid) (some pid) (some tid) io db
          = (RemoveResp.ok 0, db,
             if io then [PlaylistEvent.playlistUpdatedRemoved pid tid true] else [])) := by
  constructor
  · simp [handleRemoveTrack, hfind, hown]
  · intro hmem
    have hkeep : db.playlist_songs.filter (fun pr => !decide (pr = (pid, tid)))
        = db.playlist_songs := by
      apply List.filter_eq_self.mpr
      intro a ha
      simp only [Bool.not_eq_true', decide_eq_false_iff_not]
      exact fun h => hmem (h ▸ ha)
    have hdel : (db.playlist_songs.filter (fun pr => decide (pr = (pid, tid)))).length
        = 0 := by
      rw [List.length_eq_zero]
      rw [List.filter_eq_nil_iff]
      intro a ha
      simp only [decide_eq_true_eq]
      exact fun h => hmem (h ▸ ha)
    simp only [handleRemoveTrack, hfind, hown, ne_eq, not_true_eq_false, if_false,
      decide_not, hkeep, hdel]

/-- C6 witness. -/
theorem removeTrack_nonmember_ok_witness :
    (handleRemoveTrack (some 1) (some 10) (some 7) true ⟨[⟨10, 1⟩], []⟩).2.2
      = (if true then [PlaylistEvent.playlistUpdatedRemoved 10 7 true] else [])
    ∧ ((10, 7) ∉ ((⟨[⟨10, 1⟩], []⟩ : PlaylistDB)).playlist_songs →
        handleRemoveTrack (some 1) (some 10) (some 7) true ⟨[⟨10, 1⟩], []⟩
          = (RemoveResp.ok 0, ⟨[⟨10, 1⟩], []⟩,
             if true then [PlaylistEvent.playlistUpdatedRemoved 10 7 true] else [])) :=
  removeTrack_nonmember_ok 1 10 7 true ⟨[⟨10, 1⟩], []⟩ ⟨10, 1⟩ (by decide) (by decide)

/-- C9: the legacy path segments `add`/`remove` dispatch to the very same
handler values as the preferred `add-track`/`remove-track`, so running a
request through the legacy route produces an identical response, state and
broadcast as the preferred route, for every input. -/
theorem legacy_routes_equivalent (userId? playlistId? trackId? : Option Int)
    (io : Bool) (db : PlaylistDB) :
    playlistPostRoute "add" = playlistPostRoute "add-track"
    ∧ playlistPostRoute "remove" = playlistPostRoute "remove-track"
    ∧ runPlaylistPost "add" userId? playlistId? trackId? io db
        = runPlaylistPost "add-track" userId? playlistId? trackId? io db
    ∧ runPlaylistPost "remove" userId? playlistId? trackId? io db
        = runPlaylistPost "remove-track" userId? playlistId? trackId? io db := by
  refine ⟨by decide, by decide, ?_, ?_⟩ <;> rfl

/-- C10: for an authenticated caller, a playlistId matching no playlist row
is answered with the same `Forbidden` response the ownership check uses
(no distinct not-found response), and no membership row is inserted or
deleted. -/
theorem missing_playlist_forbidden (uid pid tid : Int) (io : Bool) (db : PlaylistDB)
    (hfind : findPlaylist db pid = none) :
    handleAddTrack (some uid) (some pid) (some tid) io db = (AddResp.forbidden, db, [])
    ∧ handleRemoveTrack (some uid) (some pid) (some tid) io db
        = (RemoveResp.forbidden, db, []) := by
  constructor <;> simp [handleAddTrack, handleRemoveTrack, hfind]

/-! ## Theorems: identity resolver -/

/-- C7: resolving the same external subject twice sequentially (no
concurrent interleaving, so the datastore answers lookups consistently)
returns the same local user id both times, and afterwards at most one
`users` row exists for that subject, given the datastore's uniqueness
invariant held initially: the second resolution finds the row by lookup
and does not insert a duplicate. -/
theorem identity_resolution_stable (getUser : String → Option SupaUser)
    (req : AuthReq) (db : UsersDB) (tok : String) (u : SupaUser)
    (h1 : requestToken req = some tok) (h2 : getUser tok = some u)
    (h3 : (db.users.filter (fun r => r.auth_user_id == u.id)).length ≤ 1) :
    (getLocalUserIdFromToken getUser req id db).1.isSome = true
    ∧ (getLocalUserIdFromToken getUser req id
         (getLocalUserIdFromToken getUser req id db).2).1
        = (getLocalUserIdFromToken getUser req id db).1
    ∧ ((getLocalUserIdFromToken getUser req id
         (getLocalUserIdFromToken getUser req id db).2).2.users.filter
           (fun r => r.auth_user_id == u.id)).length ≤ 1 := by
  cases hl : lookupUserBySubject db u.id with
  | some row =>
    have e1 : getLocalUserIdFromToken getUser req id db = (some row.id, db) := by
      simp [getLocalUserIdFromToken, h1, h2, hl]
    exact ⟨by simp only [e1, Option.isSome_some], by simp only [e1],
      by simp only [e1]; exact h3⟩
  | none =>
    have hall : ∀ r ∈ db.users, ¬ (r.auth_user_id == u.id) = true := by
      simpa [lookupUserBySubject, List.find?_eq_none] using hl
    have hany : db.users.any (fun r => r.auth_user_id == u.id) = false :=
      List.any_eq_false.mpr hall
    have e1 : getLocalUserIdFromToken getUser req id db
        = (some db.nextId,
           { users := db.users
               ++ [{ id := db.nextId, name := orNull u.metaName,
                     email := orNull u.email, auth_user_id := u.id }],
             nextId := db.nextId + 1 }) := by
      simp [getLocalUserIdFromToken, h1, h2, hl, insertUserRow, hany]
    have hfn : db.users.find? (fun r => r.auth_user_id == u.id) = none := by
      simpa [lookupUserBySubject] using hl
    have hl2 : lookupUserBySubject
        { users := db.users
            ++ [{ id := db.nextId, name := orNull u.metaName,
                  email := orNull u.email, auth_user_id := u.id }],
          nextId := db.nextId + 1 } u.id
        = some { id := db.nextId, name := orNull u.metaName,
                 email := orNull u.email, auth_user_id := u.id } := by
      simp [lookupUserBySubject, List.find?_append, hfn]
    have e2 : getLocalUserIdFromToken getUser req id
        { users := db.users
            ++ [{ id := db.nextId, name := orNull u.metaName,
                  email := orNull u.email, auth_user_id := u.id }],
          nextId := db.nextId + 1 }
        = (some db.nextId,
           { users := db.users
               ++ [{ id := db.nextId, name := orNull u.metaName,
                     email := orNull u.email, auth_user_id := u.id }],
             nextId := db.nextId + 1 }) := by
      simp [getLocalUserIdFromToken, h1, h2, hl2]
    have hfl : ((db.users
        ++ ([{ id := db.nextId, name := orNull u.metaName,
               email := orNull u.email, auth_user_id := u.id }] : List UserRow)).filter
          (fun r => r.auth_user_id == u.id)).length = 1 := by
      rw [List.filter_append, List.filter_eq_nil_iff.mpr hall]
      simp
    exact ⟨by simp only [e1, Option.isSome_some], by simp only [e1, e2],
      by simp only [e1, e2]; exact le_of_eq hfl⟩

/-- C7 witness. -/
theorem identity_resolution_stable_witness :
    (getLocalUserIdFromToken
        (fun t => if t = "tok" then some ⟨"subj", none, none⟩ else none)
        ⟨some "Bearer tok", none, none⟩ id ⟨[], 1⟩).1.isSome = true
    ∧ (getLocalUserIdFromToken
        (fun t => if t = "tok" then some ⟨"subj", none, none⟩ else none)
        ⟨some "Bearer tok", none, none⟩ id
        (getLocalUserIdFromToken
          (fun t => if t = "tok" then some ⟨"subj", none, none⟩ else none)
          ⟨some "Bearer tok", none, none⟩ id ⟨[], 1⟩).2).1
        = (getLocalUserIdFromToken
            (fun t => if t = "tok" then some ⟨"subj", none, none⟩ else none)
            ⟨some "Bearer tok", none, none⟩ id ⟨[], 1⟩).1
    ∧ ((getLocalUserIdFromToken
          (fun t => if t = "tok" then some ⟨"subj", none, none⟩ else none)
          ⟨some "Bearer tok", none, none⟩ id
          (getLocalUserIdFromToken
            (fun t => if t = "tok" then some ⟨"subj", none, none⟩ else none)
            ⟨some "Bearer tok", none, none⟩ id ⟨[], 1⟩).2).2.users.filter
            (fun r => r.auth_user_id == ("subj" : String))).length ≤ 1 :=
  identity_resolution_stable
    (fun t => if t = "tok" then some ⟨"subj", none, none⟩ else none)
    ⟨some "Bearer tok", none, none⟩ ⟨[], 1⟩ "tok" ⟨"subj", none, none⟩
    (by decide) (by decide) (by decide)

/-- C2: when the insert of a first-time `users` row loses a duplicate-key
race, `getLocalUserIdFromToken` catches the failure and returns `none`
(the request is then answered 401 Unauthorized); it does **not** re-resolve
the id by lookup, although the lookup would have found the row the race
winner created (second conjunct). -/
theorem duplicate_identity_race_returns_none :
    (getLocalUserIdFromToken
        (fun t => if t = "tok" then some ⟨"subj", none, none⟩ else none)
        ⟨some "Bearer tok", none, none⟩ raceInterleave ⟨[], 5⟩).1 = none
    ∧ lookupUserBySubject
        (getLocalUserIdFromToken
          (fun t => if t = "tok" then some ⟨"subj", none, none⟩ else none)
          ⟨some "Bearer tok", none, none⟩ raceInterleave ⟨[], 5⟩).2 "subj"
        = some ⟨1, none, none, "subj"⟩ :=
  ⟨rfl, rfl⟩

/-- C10 witness. -/
theorem missing_playlist_forbidden_witness :
    handleAddTrack (some 1) (some 99) (some 7) true ⟨[⟨10, 1⟩], [(10, 7)]⟩
        = (AddResp.forbidden, ⟨[⟨10, 1⟩], [(10, 7)]⟩, [])
    ∧ handleRemoveTrack (some 1) (some 99) (some 7) true ⟨[⟨10, 1⟩], [(10, 7)]⟩
        = (RemoveResp.forbidden, ⟨[⟨10, 1⟩], [(10, 7)]⟩, []) :=
  missing_playlist_forbidden 1 99 7 true ⟨[⟨10, 1⟩], [(10, 7)]⟩ (by decide)

/-! ## Theorems: content ingestion -/

/-- C5: a submission whose title is empty after trimming, or whose audio
payload is absent, is rejected with the validation error before any
object-store call: the store-call trace of the request is empty. -/
theorem upload_validation_before_store (env : UploadEnv) (req : UploadReq)
    (h : jsTrim (req.title.getD "") = "" ∨ req.audio = none) :
    handleUploadTrack env req = (UploadResp.validationError, [], []) := by
  cases hA : req.audio with
  | none => simp [handleUploadTrack, hA]
  | some a =>
    rcases h with ht | hn
    · simp [handleUploadTrack, hA, ht]
    · rw [hA] at hn
      cases hn

/-- C5 witness. -/
theorem upload_validation_before_store_witness :
    handleUploadTrack envFail reqBlankTitle = (UploadResp.validationError, [], []) :=
  upload_validation_before_store envFail reqBlankTitle (Or.inl (by decide))

/-- C3: for a valid submission (non-empty trimmed title, audio present,
metadata insert succeeding), the returned track always carries non-null
`public_url` and `cover_url`: when every object-store upload fails, the
fallback asset path is substituted for both and the storage key is the
debug-prefixed key, and when the audio upload succeeds the storage key
keeps the `tracks/` fileprefix. -/
theorem upload_fallback_and_keys (env : UploadEnv) (req : UploadReq)
    (a : UploadedFile) (ha : req.audio = some a)
    (ht : ¬ jsTrim (req.title.getD "") = "") (hdb : env.dbInsertOk = true) :
    ((∀ b k, env.putObject b k = Except.error ()) →
      ∃ t tr ev,
        handleUploadTrack env req
          = (UploadResp.ok "Track uploaded successfully" t, tr, ev)
        ∧ t.public_url = some LOCAL_TEST_PATH
        ∧ t.cover_url = some LOCAL_TEST_PATH
        ∧ ∃ rest, t.storage_key = "debug/" ++ rest)
    ∧ (∀ u, env.putObject "Tracks"
          ("tracks/" ++ (toString env.now ++ "_" ++ makeSafeName a.originalname))
          = Except.ok u →
      ∃ t tr ev,
        handleUploadTrack env req
          = (UploadResp.ok "Track uploaded successfully" t, tr, ev)
        ∧ ∃ rest, t.storage_key = "tracks/" ++ rest) := by
  constructor
  · intro hfail
    cases hc : req.cover with
    | none =>
      simp only [handleUploadTrack, ha, hc, uploadBuffer, hfail, hdb, if_true,
        if_neg ht]
      exact ⟨_, _, _, rfl,
        by simp only [jsOr_some_of_ne _ LOCAL_TEST_PATH_ne_empty],
        by simp only [jsOr_some_of_ne _ LOCAL_TEST_PATH_ne_empty],
        by simp only [jsOrS_self]; exact ⟨_, rfl⟩⟩
    | some c =>
      simp only [handleUploadTrack, ha, hc, uploadBuffer, hfail, hdb, if_true,
        if_neg ht]
      exact ⟨_, _, _, rfl,
        by simp only [jsOr_some_of_ne _ LOCAL_TEST_PATH_ne_empty],
        by simp only [jsOr_some_of_ne _ LOCAL_TEST_PATH_ne_empty],
        by simp only [jsOrS_self]; exact ⟨_, rfl⟩⟩
  · intro u hOk
    simp only [handleUploadTrack, ha, uploadBuffer, hOk, hdb, if_true, if_neg ht]
    exact ⟨_, _, _, rfl, by simp only [jsOrS_self]; exact ⟨_, rfl⟩⟩

/-- C3 witness: the failing store gives the fallback URLs and a
debug-prefixed key; the healthy store keeps the tracks-prefixed key. -/
theorem upload_fallback_and_keys_witness :
    (∃ t tr ev,
        handleUploadTrack envFail reqNightDrive
          = (UploadResp.ok "Track uploaded successfully" t, tr, ev)
        ∧ t.public_url = some LOCAL_TEST_PATH
        ∧ t.cover_url = some LOCAL_TEST_PATH
        ∧ ∃ rest, t.storage_key = "debug/" ++ rest)
    ∧ (∃ t tr ev,
        handleUploadTrack envOk reqNightDrive
          = (UploadResp.ok "Track uploaded successfully" t, tr, ev)
        ∧ ∃ rest, t.storage_key = "tracks/" ++ rest) :=
  ⟨(upload_fallback_and_keys envFail reqNightDrive audioFile rfl (by decide)
      rfl).1 (fun _ _ => rfl),
   (upload_fallback_and_keys envOk reqNightDrive audioFile rfl (by decide)
      rfl).2 (some "https://cdn.example/obj") rfl⟩

/-! ## Theorems: uploader-name resolution order (C8) -/

theorem jsOr_assoc (a b c : Option String) :
    jsOr (jsOr a b) c = jsOr a (jsOr b c) := by
  cases a with
  | none => rfl
  | some s =>
    by_cases h : s = "" <;> simp [jsOr, h]

theorem jsOr_none_left (z : Option String) : jsOr none z = z := rfl

theorem jsOr_orNull_left (a : Option String) (z : Option String) :
    jsOr (jsOr a none) z = jsOr a z := by
  cases a with
  | none => rfl
  | some s =>
    by_cases h : s = "" <;> simp [jsOr, h]

theorem jsOr_truthy (x z : Option String) (h : truthy x = true) : jsOr x z = x := by
  cases x with
  | none => simp [truthy] at h
  | some s =>
    simp only [truthy, Bool.not_eq_true', beq_eq_false_iff_ne, ne_eq] at h
    simp [jsOr, h]

theorem jsOr_falsy (x z : Option String) (h : truthy x = false) : jsOr x z = z := by
  cases x with
  | none => rfl
  | some s =>
    simp only [truthy, Bool.not_eq_false', beq_iff_eq] at h
    simp [jsOr, h]

theorem truthy_stepA (x a b z : Option String) :
    jsOr (if truthy x = true then x else jsOr a (jsOr b none)) z
      = jsOr x (jsOr a (jsOr b z)) := by
  by_cases h : truthy x = true
  · rw [if_pos h, jsOr_truthy x z h, jsOr_truthy x _ h]
  · have h' : truthy x = false := by revert h; cases truthy x <;> simp
    rw [if_neg h, jsOr_assoc, jsOr_assoc, jsOr_none_left, jsOr_falsy x _ h']

theorem truthy_stepB (x a b z : Option String) :
    jsOr (if truthy x = true then x else jsOr a (jsOr b x)) z
      = jsOr x (jsOr a (jsOr b z)) := by
  by_cases h : truthy x = true
  · rw [if_pos h, jsOr_truthy x z h, jsOr_truthy x _ h]
  · have h' : truthy x = false := by revert h; cases truthy x <;> simp
    rw [if_neg h, jsOr_assoc, jsOr_assoc, jsOr_falsy x z h', jsOr_falsy x _ h']

theorem jsOr_chain_spec (a : Option String) (rest : List (Option String))
    (art : String) :
    jsOr a (some (specUploaderName rest art))
      = some (specUploaderName (a :: rest) art) := by
  cases a with
  | none => rfl
  | some s =>
    by_cases h : s = "" <;> simp [jsOr, specUploaderName, h]

theorem spec_chain_as_jsOr (s1 s2 s3 s4 s5 : Option String) (art : String) :
    some (specUploaderName [s1, s2, s3, s4, s5] art)
      = jsOr s1 (jsOr s2 (jsOr s3 (jsOr s4 (jsOr s5 (some art))))) := by
  rw [← jsOr_chain_spec, ← jsOr_chain_spec, ← jsOr_chain_spec, ← jsOr_chain_spec,
    ← jsOr_chain_spec]
  rfl

/-- C8: the uploader name computed by the upload handler equals the spec's
fallback chain evaluated in exactly this order — explicit uploader-name
field of the request (trimmed), identity-provider profile name, provider
email, cookie-carried display name, cookie email, and finally the resolved
artist name — with the first non-empty source winning. -/
theorem uploader_name_fallback_chain (getUser : String → Option SupaUser)
    (req : UploadReq) (artistName : String) :
    (resolveUploaderName getUser req artistName).2
      = some (specUploaderName
          [some (jsTrim (req.uploader_name.getD "")),
           (providerProfile getUser req).1, (providerProfile getUser req).2,
           (cookieProfile req).1, (cookieProfile req).2] artistName) := by
  rw [spec_chain_as_jsOr]
  cases hb : bearerToken req.authorization with
  | none =>
    rcases hck : req.userCookie with _ | (u | ⟨nm, em⟩) <;>
      simp only [resolveUploaderName, providerProfile, cookieProfile, hb, hck,
        orNull, ite_self, truthy_stepA, truthy_stepB, jsOr_orNull_left,
        jsOr_none_left]
  | some tok =>
    cases hg : getUser tok with
    | none =>
      rcases hck : req.userCookie with _ | (u | ⟨nm, em⟩) <;>
        simp only [resolveUploaderName, providerProfile, cookieProfile, hb, hg,
          hck, orNull, ite_self, truthy_stepA, truthy_stepB, jsOr_orNull_left,
          jsOr_none_left]
    | some u =>
      rcases hck : req.userCookie with _ | (w | ⟨nm, em⟩) <;>
        simp only [resolveUploaderName, providerProfile, cookieProfile, hb, hg,
          hck, orNull, ite_self, truthy_stepA, truthy_stepB, jsOr_orNull_left,
          jsOr_none_left]
